import Mathlib

/-!
Shallow embedding of the vote-transaction submission pipeline of
`modules/accounts.js` (ark-node): `shared.addDelegates` (the submitVote
operation), `shared.getBalance`, `Accounts.prototype.getAccount` and
`Accounts.prototype.setAccountAndGet`, together with the account-store
interface they use.

Modelling conventions:
- JavaScript callback chains become sequential `match`/`if` cascades; every
  `setImmediate(cb, err)` becomes an `Except.error` with the literal source
  message string.
- JavaScript falsy checks on optional strings/arrays (`!account.publicKey`,
  `!account.multisignatures`, `!req.body.secondSecret`) are modelled with
  `Option`: `none` is falsy, `some v` is truthy.  In particular a present but
  EMPTY array `[]` is truthy in JavaScript, so `multisignatures : Option (List String)`
  distinguishes `none` (absent, falsy) from `some []` (present empty array, truthy),
  exactly as the source does.
- Cryptographic primitives (sha256, `library.ed.makeKeypair`,
  `arkjs.crypto.getAddress`) and the request-schema validator are external
  trusted collaborators; they are threaded through a `Library` record of
  abstract functions, mirroring the `library`/`modules` scope object of the
  source.  `makeKeypairPub secret` stands for
  `library.ed.makeKeypair(sha256(secret)).publicKey.toString('hex')`; private
  keys never influence control flow in this module and are not modelled.
- The ledger store (`library.logic.account`) is external state; it is modelled
  as a list of accounts keyed by `address`, and every pipeline function also
  returns the final store plus a trace of store operations (`Op.read` /
  `Op.write`), so that read-only claims are statable.
-/

/-- Account record, from the fields `modules/accounts.js` reads:
`address`, `publicKey`, `balance`, `u_balance`, `secondSignature`,
`multisignatures`. `balance`/`u_balance` are the strings the store hands back
(`shared.getBalance` returns them verbatim). -/
structure Account where
  address : String
  publicKey : Option String
  balance : String
  u_balance : String
  secondSignature : Bool
  multisignatures : Option (List String)
deriving DecidableEq, Repr

/-- Keypair as used by `shared.addDelegates`: only its public key (hex string,
`keypair.publicKey.toString('hex')`) is ever inspected. -/
structure Keypair where
  publicKey : String
deriving DecidableEq, Repr

/-- The ledger store: the account records held by `library.logic.account`,
keyed by `address`. -/
abbrev Store := List Account

/-- A store operation performed by the pipeline, for the read-only claims:
`library.logic.account.get` is a `read`, `library.logic.account.set` a `write`. -/
inductive Op where
  | read (addr : String)
  | write (addr : String)
deriving DecidableEq, Repr

/-- Lookup by address: `library.logic.account.get({address: addr})`. -/
def Store.get (s : Store) (addr : String) : Option Account :=
  s.find? (fun a => a.address == addr)

/-- A freshly created account record: address and public key as supplied,
every other field at its default (zero balances, no second signature, no
multisignatures). -/
def freshAccount (addr : String) (pk : String) : Account :=
  { address := addr, publicKey := some pk, balance := "0", u_balance := "0",
    secondSignature := false, multisignatures := none }

/-- Modelled from the spec: `library.logic.account.set(address, {publicKey})`
(logic/account.js, the AccountStore's write operation, which the spec only
describes at its read interface §6 / §4.2).  Modelled as the standard upsert:
update the `publicKey` field of the record at `address` if one exists,
otherwise create a fresh record at `address` with default fields. -/
def Store.set (s : Store) (addr : String) (pk : String) : Store :=
  match s with
  | [] => [freshAccount addr pk]
  | a :: t =>
    if a.address == addr then { a with publicKey := some pk } :: t
    else a :: Store.set t addr pk

/-- transactionTypes.VOTE (helpers/transactionTypes.js). -/
def voteType : Nat := 3

/-- The argument object passed to `library.logic.transaction.create` by
`shared.addDelegates`: `{type, votes, sender, keypair, secondKeypair, requester?}`.
`requester = none` models the direct-path call, which omits the key. -/
structure CreateParams where
  type : Nat
  votes : List String
  sender : Account
  keypair : Keypair
  secondKeypair : Option Keypair
  requester : Option Keypair
deriving DecidableEq, Repr

/-- Modelled from the spec: the `VoteTransaction` record (§3) produced by
`library.logic.transaction.create` (logic/transaction.js, not part of this
module): `type = VOTE`, sender identity from the resolved sender account,
`requesterPublicKey` attached only when a requester keypair is supplied, and
the vote list as the asset.  Signatures are produced by the trusted signing
primitive and carry no information the claims need, so they are not modelled. -/
structure Tx where
  type : Nat
  senderPublicKey : Option String
  requesterPublicKey : Option String
  asset : List String
deriving DecidableEq, Repr

/-- Modelled from the spec: the successful result of
`library.logic.transaction.create` (§4.4 `build(plan) -> VoteTransaction`). -/
def createVoteTx (p : CreateParams) : Tx :=
  { type := p.type
    senderPublicKey := p.sender.publicKey
    requesterPublicKey := p.requester.map (fun k => k.publicKey)
    asset := p.votes }

/-- A JavaScript exception value as thrown by `library.logic.transaction.create`;
`e.toString()` on an `Error` yields `name ++ ": " ++ message`. -/
structure JsError where
  name : String
  msg : String
deriving DecidableEq, Repr

/-- JavaScript `e.toString()` for an `Error` object. -/
def JsError.toStr (e : JsError) : String :=
  e.name ++ ": " ++ e.msg

/-- The request body of `PUT /api/accounts/delegates` (submitVote):
`secret`, optional `secondSecret`, optional `publicKey`, optional
`multisigAccountPublicKey`, and the vote list `delegates`. -/
structure Request where
  secret : String
  secondSecret : Option String
  publicKey : Option String
  multisigAccountPublicKey : Option String
  delegates : List String
deriving DecidableEq, Repr

/-- The external collaborators in the `library`/`modules` scope that
`shared.addDelegates` and `shared.getBalance` call into. -/
structure Library where
  /-- `library.ed.makeKeypair(sha256(secret)).publicKey.toString('hex')`:
  deterministic by being a function. -/
  makeKeypairPub : String → String
  /-- `arkjs.crypto.getAddress(publicKey)` (`generateAddressByPublicKey`):
  deterministic, total (spec §6). -/
  getAddress : String → String
  /-- `library.schema.validate(req.body, schema.addDelegates)`:
  `none` = valid, `some msg` = `err[0].message`. -/
  validateAddDelegates : Request → Option String
  /-- `library.schema.validate(req.body, schema.getBalance)` on the body's address. -/
  validateGetBalance : String → Option String
  /-- `library.logic.transaction.create`: `.error e` models a thrown exception. -/
  create : CreateParams → Except JsError Tx
  /-- `modules.transactions.receiveTransactions([transaction], cb)`:
  the hand-off to the transaction pool, external to this module. -/
  receiveTransactions : List Tx → Except String (List Tx)

/-- Result with the final store state and the trace of store operations. -/
structure Outcome (α : Type) where
  result : Except String α
  store : Store
  ops : List Op
deriving Repr

/-- The response object `{transaction: transaction[0]}`; `none` models the
JavaScript `undefined` of indexing an empty array. -/
structure AddDelegatesResp where
  transaction : Option Tx
deriving DecidableEq, Repr

/-- The check `if (req.body.publicKey) { keypair.publicKey.toString('hex') !== req.body.publicKey }`
(lines 266-270): `true` iff the supplied expected public key, when present,
matches the derived one. -/
def pubkeyCheckOk (req : Request) (pub : String) : Bool :=
  match req.publicKey with
  | some pk => pk == pub
  | none => true

/-- The branch condition
`req.body.multisigAccountPublicKey && req.body.multisigAccountPublicKey !== keypair.publicKey.toString('hex')`
(line 273): the delegated (multisignature) path is taken iff a target public
key is supplied and differs from the derived one. -/
def takesDelegatedPath (req : Request) (pub : String) : Bool :=
  match req.multisigAccountPublicKey with
  | some m => m != pub
  | none => false

/-- `Accounts.prototype.getAccount` with a `publicKey` filter (lines 111-118):
converts the public key to an address via `generateAddressByPublicKey`, then
does a read-only `library.logic.account.get`. -/
def getAccountByPublicKey (lib : Library) (store : Store) (pk : String) :
    Option Account × List Op :=
  let addr := lib.getAddress pk
  (Store.get store addr, [Op.read addr])

/-- `Accounts.prototype.setAccountAndGet({publicKey})` (lines 124-145): derives
the address from the public key, writes via `library.logic.account.set`, then
reads the record back.  The `Missing address or public key` and
`Invalid public key` guards cannot fire here: the caller always supplies a
public key and `getAddress` is total (spec §6). -/
def setAccountAndGet (lib : Library) (store : Store) (pk : String) :
    Option Account × Store × List Op :=
  let addr := lib.getAddress pk
  let store1 := Store.set store addr pk
  (Store.get store1 addr, store1, [Op.write addr, Op.read addr])

/-- The delegated (multisignature) branch of `shared.addDelegates`
(lines 273-332), run inside `library.balancesSequence.add`:
resolve the target account by `multisigAccountPublicKey`, check
`!account || !account.publicKey`, then the guard
`!account.multisignatures || !account.multisignatures` (transcribed literally,
duplicated disjunct included), then `indexOf(pub) < 0`, then resolve the
requester by the derived public key, check the requester's second-signature
requirement and `requester.publicKey === account.publicKey`, then build and
hand off.  This branch performs no store write. -/
def addDelegatesMultisig (lib : Library) (store : Store) (req : Request)
    (pub : String) (m : String) : Except String (List Tx) × List Op :=
  let targetAddr := lib.getAddress m
  let ops := [Op.read targetAddr]
  match Store.get store targetAddr with
  | none => (.error "Multisignature account not found", ops)
  | some account =>
    if account.publicKey.isNone then
      (.error "Multisignature account not found", ops)
    else if account.multisignatures.isNone || account.multisignatures.isNone then
      -- source line 283: `if (!account.multisignatures || !account.multisignatures)`
      (.error "Account does not have multisignatures enabled", ops)
    else
      let msigs := account.multisignatures.getD []
      if !(msigs.contains pub) then
        (.error "Account does not belong to multisignature group", ops)
      else
        let reqAddr := lib.getAddress pub
        let ops := ops ++ [Op.read reqAddr]
        match Store.get store reqAddr with
        | none => (.error "Requester not found", ops)
        | some requester =>
          if requester.publicKey.isNone then
            (.error "Requester not found", ops)
          else if requester.secondSignature && req.secondSecret.isNone then
            (.error "Missing requester second passphrase", ops)
          else if requester.publicKey == account.publicKey then
            (.error "Invalid requester public key", ops)
          else
            let secondKeypair : Option Keypair :=
              if requester.secondSignature then
                some ⟨lib.makeKeypairPub (req.secondSecret.getD "")⟩
              else none
            match lib.create { type := voteType, votes := req.delegates,
                               sender := account, keypair := ⟨pub⟩,
                               secondKeypair := secondKeypair,
                               requester := some ⟨pub⟩ } with
            | .error e => (.error e.toStr, ops)
            | .ok tx =>
              match lib.receiveTransactions [tx] with
              | .error e => (.error e, ops)
              | .ok l => (.ok l, ops)

/-- The direct branch of `shared.addDelegates` (lines 333-369), run inside
`library.balancesSequence.add`: upsert-and-resolve the sender's own account
via `setAccountAndGet`, check `!account || !account.publicKey`, check the
second-signature requirement, then build and hand off.  This branch writes
the sender's account record. -/
def addDelegatesDirect (lib : Library) (store : Store) (req : Request)
    (pub : String) : Except String (List Tx) × Store × List Op :=
  match setAccountAndGet lib store pub with
  | (acct?, store1, ops) =>
    match acct? with
    | none => (.error "Account not found", store1, ops)
    | some account =>
      if account.publicKey.isNone then
        (.error "Account not found", store1, ops)
      else if account.secondSignature && req.secondSecret.isNone then
        (.error "Invalid second passphrase", store1, ops)
      else
        let secondKeypair : Option Keypair :=
          if account.secondSignature then
            some ⟨lib.makeKeypairPub (req.secondSecret.getD "")⟩
          else none
        match lib.create { type := voteType, votes := req.delegates,
                           sender := account, keypair := ⟨pub⟩,
                           secondKeypair := secondKeypair,
                           requester := none } with
        | .error e => (.error e.toStr, store1, ops)
        | .ok tx =>
          match lib.receiveTransactions [tx] with
          | .error e => (.error e, store1, ops)
          | .ok l => (.ok l, store1, ops)

/-- `shared.addDelegates` (lines 257-379), the submitVote pipeline: validate
the body, derive the keypair from `secret`, check the optional expected
`publicKey`, then inside `library.balancesSequence.add` run the delegated or
the direct branch, and on success answer `{transaction: transaction[0]}`. -/
def addDelegates (lib : Library) (store : Store) (req : Request) :
    Outcome AddDelegatesResp :=
  match lib.validateAddDelegates req with
  | some msg => ⟨.error msg, store, []⟩
  | none =>
    let pub := lib.makeKeypairPub req.secret
    if !(pubkeyCheckOk req pub) then
      ⟨.error "Invalid passphrase", store, []⟩
    else
      let inner : Except String (List Tx) × Store × List Op :=
        if takesDelegatedPath req pub then
          match addDelegatesMultisig lib store req pub (req.multisigAccountPublicKey.getD "") with
          | (r, ops) => (r, store, ops)
        else
          addDelegatesDirect lib store req pub
      match inner with
      | (.error e, st, ops) => ⟨.error e, st, ops⟩
      | (.ok l, st, ops) => ⟨.ok ⟨l.head?⟩, st, ops⟩

/-- Response of `shared.getBalance`. -/
structure BalanceResp where
  balance : String
  unconfirmedBalance : String
deriving DecidableEq, Repr

/-- A character of the address character class `[1-9A-Za-z]` of the source's
address regex. -/
def isAddressChar (c : Char) : Bool :=
  ('1' ≤ c && c ≤ '9') || ('A' ≤ c && c ≤ 'Z') || ('a' ≤ c && c ≤ 'z')

/-- The address syntax test `/^[1-9A-Za-z]{1,52}[A]$/` (line 180): 1 to 52
characters of the class followed by a final `A`. -/
def isAddress (s : String) : Bool :=
  let cs := s.data
  decide (2 ≤ cs.length) && decide (cs.length ≤ 53) &&
    cs.dropLast.all isAddressChar && (cs.getLastD ' ' == 'A')

/-- `shared.getBalance` (lines 174-196): validate the body, test the address
syntax, resolve the account by address (read-only), and answer
`account ? account.balance : '0'` / `account ? account.u_balance : '0'`. -/
def getBalance (lib : Library) (store : Store) (addr : String) :
    Outcome BalanceResp :=
  match lib.validateGetBalance addr with
  | some msg => ⟨.error msg, store, []⟩
  | none =>
    if !(isAddress addr) then
      ⟨.error "Invalid address", store, []⟩
    else
      match Store.get store addr with
      | some account => ⟨.ok ⟨account.balance, account.u_balance⟩, store, [Op.read addr]⟩
      | none => ⟨.ok ⟨"0", "0"⟩, store, [Op.read addr]⟩

/-- The direct-path second-signature guard
`account.secondSignature && !req.body.secondSecret` (line 343), evaluated
against the pre-upsert store: the upsert preserves `secondSignature` of an
existing record and a fresh record has `secondSignature = false`. -/
def directSecondFails (store : Store) (addr : String) (req : Request) : Bool :=
  match Store.get store addr with
  | some a => a.secondSignature && req.secondSecret.isNone
  | none => false

/-- Concrete instantiation of the external collaborators for the concrete
evaluations below: key derivation appends `"P"` to the secret, address
derivation appends `"A"` to the public key (distinct inputs give distinct
outputs), schema validation accepts everything, transaction creation succeeds
with the spec-modelled `createVoteTx`, and the pool accepts every hand-off. -/
def libW : Library :=
  { makeKeypairPub := fun s => s ++ "P"
    getAddress := fun pk => pk ++ "A"
    validateAddDelegates := fun _ => none
    validateGetBalance := fun _ => none
    create := fun p => .ok (createVoteTx p)
    receiveTransactions := fun l => .ok l }

/-- Variant of `libW` whose `library.logic.transaction.create` always throws
`Error: Invalid votes`. -/
def libE : Library :=
  { libW with create := fun _ => .error ⟨"Error", "Invalid votes"⟩ }

/-- Delegated request: secret `"abc"` (derived public key `"abcP"` under
`libW`), target multisig public key `"K"`, no second secret, no expected
public key. -/
def reqMsig : Request :=
  { secret := "abc", secondSecret := none, publicKey := none,
    multisigAccountPublicKey := some "K", delegates := ["+d1"] }

/-- Direct request: secret `"abc"`, no optional fields. -/
def reqDirect : Request :=
  { secret := "abc", secondSecret := none, publicKey := none,
    multisigAccountPublicKey := none, delegates := ["+d1"] }

/-- Store for the C1 evaluation: the target account (address `"KA"`, the
address of public key `"K"` under `libW`) exists with an EMPTY (but present)
`multisignatures` array. -/
def storeC1 : Store :=
  [{ address := "KA", publicKey := some "K", balance := "0", u_balance := "0",
     secondSignature := false, multisignatures := some [] }]

/-- Store for the C2 counterexample: the target account's public key equals
the derived public key `"abcP"` of secret `"abc"`, the derived key is a member
of the target's `multisignatures`, and the requester account exists with
`secondSignature = true`. -/
def storeC2 : Store :=
  [{ address := "KA", publicKey := some "abcP", balance := "0", u_balance := "0",
     secondSignature := false, multisignatures := some ["abcP"] },
   { address := "abcPA", publicKey := some "abcP", balance := "0", u_balance := "0",
     secondSignature := true, multisignatures := none }]

/-- Store for the C2 witness: every check before the requester/target equality
passes, and the requester's stored public key equals the target's stored
public key (both `"Q"`). -/
def storeC2w : Store :=
  [{ address := "KA", publicKey := some "Q", balance := "0", u_balance := "0",
     secondSignature := false, multisignatures := some ["abcP"] },
   { address := "abcPA", publicKey := some "Q", balance := "0", u_balance := "0",
     secondSignature := false, multisignatures := none }]

/-- Store for the C5 witness: the target account's `multisignatures` set is
non-empty but does not contain the derived public key `"abcP"`. -/
def storeC5 : Store :=
  [{ address := "KA", publicKey := some "K", balance := "0", u_balance := "0",
     secondSignature := false, multisignatures := some ["other"] }]

/-- Store for the C6 witness: the sender's own account (address `"abcPA"`)
exists with `secondSignature = true`. -/
def storeC6 : Store :=
  [{ address := "abcPA", publicKey := some "abcP", balance := "5", u_balance := "6",
     secondSignature := true, multisignatures := none }]

/-- Store for the C7/C8 delegated witnesses: target with the derived key in
its `multisignatures`, requester present with no second signature and a
public key distinct from the target's. -/
def storeC7 : Store :=
  [{ address := "KA", publicKey := some "K", balance := "0", u_balance := "0",
     secondSignature := false, multisignatures := some ["abcP"] },
   { address := "abcPA", publicKey := some "abcP", balance := "0", u_balance := "0",
     secondSignature := false, multisignatures := none }]

def reqBadPk : Request :=
  { secret := "abc", secondSecret := none, publicKey := some "zz",
    multisigAccountPublicKey := none, delegates := [] }

/-- Reading back the address just written: the upsert updates the first record
at `addr` (preserving its other fields) or creates a fresh record. -/
theorem Store.get_set_self (s : Store) (addr pk : String) :
    Store.get (Store.set s addr pk) addr =
      some (match Store.get s addr with
            | some a => { a with publicKey := some pk }
            | none => freshAccount addr pk) := by
  induction s with
  | nil => simp [Store.get, Store.set, List.find?, freshAccount]
  | cons a t ih =>
    by_cases h : (a.address == addr) = true
    · simp [Store.set, Store.get, List.find?, h]
    · simp only [Store.set, Store.get, List.find?, h] at *
      simp [h, ih]

/-- C4: a supplied `publicKey` that differs from the derived keypair's public
key is rejected with `InvalidCredential` (`'Invalid passphrase'`) before any
account resolution: no store operation is performed and the store is
unchanged. -/
theorem C4_invalid_credential (lib : Library) (store : Store) (req : Request)
    (pk : String)
    (hval : lib.validateAddDelegates req = none)
    (hpk : req.publicKey = some pk)
    (hne : pk ≠ lib.makeKeypairPub req.secret) :
    (addDelegates lib store req).result = .error "Invalid passphrase" ∧
    (addDelegates lib store req).ops = [] ∧
    (addDelegates lib store req).store = store := by
  simp [addDelegates, pubkeyCheckOk, hval, hpk, hne]

theorem C4_invalid_credential_witness :
    (addDelegates libW [] reqBadPk).result = .error "Invalid passphrase" :=
  (C4_invalid_credential libW [] reqBadPk "zz" rfl rfl (by decide)).1

/-- C5: in the delegated path, a target whose `multisignatures` set is present
but does not contain the signer's derived public key is rejected with
`UnauthorizedSigner` (`'Account does not belong to multisignature group'`),
regardless of the requester account's state. -/
theorem C5_unauthorized_signer (lib : Library) (store : Store) (req : Request)
    (m tpk : String) (tAcct : Account) (l : List String)
    (hval : lib.validateAddDelegates req = none)
    (hpk : pubkeyCheckOk req (lib.makeKeypairPub req.secret) = true)
    (hm : req.multisigAccountPublicKey = some m)
    (hne : m ≠ lib.makeKeypairPub req.secret)
    (htgt : Store.get store (lib.getAddress m) = some tAcct)
    (htpk : tAcct.publicKey = some tpk)
    (hms : tAcct.multisignatures = some l)
    (hmem : lib.makeKeypairPub req.secret ∉ l) :
    (addDelegates lib store req).result =
      .error "Account does not belong to multisignature group" := by
  simp [addDelegates, addDelegatesMultisig, takesDelegatedPath, hval, hpk, hm,
        hne, htgt, htpk, hms, hmem]

theorem C5_unauthorized_signer_witness :
    (addDelegates libW storeC5 reqMsig).result =
      .error "Account does not belong to multisignature group" :=
  C5_unauthorized_signer libW storeC5 reqMsig "K" "K" _ ["other"]
    rfl rfl rfl (by decide) rfl rfl rfl (by decide)

/-- C10: `getBalance` on a syntactically valid address with no account record
succeeds with balance `"0"` and unconfirmedBalance `"0"`. -/
theorem C10_balance_absent_account (lib : Library) (store : Store) (addr : String)
    (hval : lib.validateGetBalance addr = none)
    (haddr : isAddress addr = true)
    (hacct : Store.get store addr = none) :
    (getBalance lib store addr).result = .ok ⟨"0", "0"⟩ := by
  simp [getBalance, hval, haddr, hacct]

theorem C10_balance_absent_account_witness :
    (getBalance libW [] "1A").result = .ok ⟨"0", "0"⟩ :=
  C10_balance_absent_account libW [] "1A" rfl (by decide) rfl

/-- C1: evaluation at the failing input.  The resolved target account has a
present but EMPTY `multisignatures` array; the guard on source line 283
(`!account.multisignatures || !account.multisignatures`, a slip whose second
disjunct repeats the first instead of testing `.length`) passes because an
empty array is truthy, so the pipeline rejects with `UnauthorizedSigner`
(`'Account does not belong to multisignature group'`) and not with
`NotMultisigAccount` (`'Account does not have multisignatures enabled'`) as
the claim states. -/
theorem C1_empty_multisignatures_eval :
    (Store.get storeC1 "KA").map (fun a => a.multisignatures) = some (some []) ∧
    (addDelegates libW storeC1 reqMsig).result =
      .error "Account does not belong to multisignature group" ∧
    (addDelegates libW storeC1 reqMsig).result ≠
      .error "Account does not have multisignatures enabled" := by
  refine ⟨rfl, rfl, fun h => ?_⟩
  have h2 : (Except.error "Account does not belong to multisignature group" :
      Except String AddDelegatesResp) =
      Except.error "Account does not have multisignatures enabled" := h
  exact absurd (Except.error.inj h2) (by decide)

/-- C6: in the direct path, a resolved sender account with
`secondSignature = true` and a request without `secondSecret` is rejected with
`MissingSecondFactor` (`'Invalid second passphrase'`), regardless of the vote
list. -/
theorem C6_missing_second_factor_direct (lib : Library) (store : Store)
    (req : Request) (acct : Account)
    (hval : lib.validateAddDelegates req = none)
    (hpk : pubkeyCheckOk req (lib.makeKeypairPub req.secret) = true)
    (hdel : takesDelegatedPath req (lib.makeKeypairPub req.secret) = false)
    (hacct : Store.get store (lib.getAddress (lib.makeKeypairPub req.secret)) = some acct)
    (hsig : acct.secondSignature = true)
    (hss : req.secondSecret = none) :
    (addDelegates lib store req).result = .error "Invalid second passphrase" := by
  simp [addDelegates, addDelegatesDirect, setAccountAndGet, hval, hpk, hdel,
        Store.get_set_self, hacct, hsig, hss]

theorem C6_missing_second_factor_direct_witness :
    (addDelegates libW storeC6 reqDirect).result =
      .error "Invalid second passphrase" :=
  C6_missing_second_factor_direct libW storeC6 reqDirect _
    rfl rfl rfl rfl rfl rfl

/-- C2, counterexample: at this input the requester's derived public key
equals the target account's public key, yet the pipeline rejects with
`MissingSecondFactor` (`'Missing requester second passphrase'`), not with
`InvalidRequester` (`'Invalid requester public key'`): the requester
second-signature check runs before the requester/target equality check, so the
claim's "regardless of the outcome of the other checks" is false. -/
theorem C2_counterexample :
    (Store.get storeC2 "KA").map (fun a => a.publicKey) =
      some (some (libW.makeKeypairPub "abc")) ∧
    (addDelegates libW storeC2 reqMsig).result =
      .error "Missing requester second passphrase" ∧
    (addDelegates libW storeC2 reqMsig).result ≠
      .error "Invalid requester public key" := by
  refine ⟨rfl, rfl, fun h => ?_⟩
  have h2 : (Except.error "Missing requester second passphrase" :
      Except String AddDelegatesResp) =
      Except.error "Invalid requester public key" := h
  exact absurd (Except.error.inj h2) (by decide)

/-- C2, amended: in the delegated path, once every earlier check passes
(target resolved with a truthy public key, `multisignatures` present, signer's
derived key a member, requester resolved with a truthy public key, requester's
second-signature requirement satisfied), a requester whose stored public key
equals the target's is rejected with `InvalidRequester`
(`'Invalid requester public key'`). -/
theorem C2_invalid_requester (lib : Library) (store : Store) (req : Request)
    (m tpk rpk : String) (tAcct rAcct : Account) (l : List String)
    (hval : lib.validateAddDelegates req = none)
    (hpk : pubkeyCheckOk req (lib.makeKeypairPub req.secret) = true)
    (hm : req.multisigAccountPublicKey = some m)
    (hne : m ≠ lib.makeKeypairPub req.secret)
    (htgt : Store.get store (lib.getAddress m) = some tAcct)
    (htpk : tAcct.publicKey = some tpk)
    (hms : tAcct.multisignatures = some l)
    (hmem : lib.makeKeypairPub req.secret ∈ l)
    (hreq : Store.get store (lib.getAddress (lib.makeKeypairPub req.secret)) = some rAcct)
    (hrpk : rAcct.publicKey = some rpk)
    (hsecond : (rAcct.secondSignature && req.secondSecret.isNone) = false)
    (heq : rpk = tpk) :
    (addDelegates lib store req).result = .error "Invalid requester public key" := by
  simp [addDelegates, addDelegatesMultisig, takesDelegatedPath, hval, hpk, hm,
        hne, htgt, htpk, hms, hmem, hreq, hrpk, hsecond, heq]

theorem C2_invalid_requester_witness :
    (addDelegates libW storeC2w reqMsig).result =
      .error "Invalid requester public key" :=
  C2_invalid_requester libW storeC2w reqMsig "K" "Q" "Q" _ _ ["abcP"]
    rfl rfl rfl (by decide) rfl rfl rfl (by decide) rfl rfl rfl rfl

/-- The delegated branch performs no store write: its operation trace consists
of reads only. -/
theorem addDelegatesMultisig_no_write (lib : Library) (store : Store)
    (req : Request) (pub m a : String) :
    Op.write a ∉ (addDelegatesMultisig lib store req pub m).2 := by
  simp only [addDelegatesMultisig]
  repeat' split
  all_goals simp

/-- The direct branch always upserts the sender's account record and its
operation trace is exactly one write followed by one read of the sender's
address. -/
theorem addDelegatesDirect_store_ops (lib : Library) (store : Store)
    (req : Request) (pub : String) :
    (addDelegatesDirect lib store req pub).2.1 =
      Store.set store (lib.getAddress pub) pub ∧
    (addDelegatesDirect lib store req pub).2.2 =
      [Op.write (lib.getAddress pub), Op.read (lib.getAddress pub)] := by
  simp only [addDelegatesDirect, setAccountAndGet]
  repeat' split
  all_goals simp_all

/-- C3, counterexample: a direct-path request on an empty store performs a
ledger-store write during account resolution (`setAccountAndGet` calls
`library.logic.account.set`) and leaves the store changed, so "no write on
every path" is false. -/
theorem C3_counterexample :
    Op.write "abcPA" ∈ (addDelegates libW [] reqDirect).ops ∧
    (addDelegates libW [] reqDirect).store ≠ ([] : Store) :=
  ⟨by decide, by decide⟩

/-- C3, amended: the delegated path's resolve/authorize phase is read-only
(no write in its trace, store unchanged on every outcome), while the direct
path always performs exactly one write — the `setAccountAndGet` upsert of the
sender's own record — followed by one read, on every outcome. -/
theorem C3_resolution_store_effects (lib : Library) (store : Store) (req : Request)
    (hval : lib.validateAddDelegates req = none)
    (hpk : pubkeyCheckOk req (lib.makeKeypairPub req.secret) = true) :
    (takesDelegatedPath req (lib.makeKeypairPub req.secret) = true →
      (∀ a, Op.write a ∉ (addDelegates lib store req).ops) ∧
      (addDelegates lib store req).store = store) ∧
    (takesDelegatedPath req (lib.makeKeypairPub req.secret) = false →
      (addDelegates lib store req).ops =
        [Op.write (lib.getAddress (lib.makeKeypairPub req.secret)),
         Op.read (lib.getAddress (lib.makeKeypairPub req.secret))] ∧
      (addDelegates lib store req).store =
        Store.set store (lib.getAddress (lib.makeKeypairPub req.secret))
          (lib.makeKeypairPub req.secret)) := by
  constructor
  · intro h
    have hw := fun a => addDelegatesMultisig_no_write lib store req
      (lib.makeKeypairPub req.secret) (req.multisigAccountPublicKey.getD "") a
    rcases hms : addDelegatesMultisig lib store req (lib.makeKeypairPub req.secret)
      (req.multisigAccountPublicKey.getD "") with ⟨r, ops⟩
    simp only [hms] at hw
    simp [addDelegates, hval, hpk, h, hms]
    rcases r with e | l <;> simp_all
  · intro h
    have hd := addDelegatesDirect_store_ops lib store req (lib.makeKeypairPub req.secret)
    rcases hds : addDelegatesDirect lib store req (lib.makeKeypairPub req.secret) with ⟨r, st, ops⟩
    simp only [hds] at hd
    simp [addDelegates, hval, hpk, h, hds]
    rcases r with e | l <;> simp_all

theorem C3_resolution_store_effects_witness :
    Op.write "KA" ∉ (addDelegates libW storeC7 reqMsig).ops ∧
    (addDelegates libW storeC7 reqMsig).store = storeC7 :=
  ⟨((C3_resolution_store_effects libW storeC7 reqMsig rfl rfl).1 rfl).1 "KA",
   ((C3_resolution_store_effects libW storeC7 reqMsig rfl rfl).1 rfl).2⟩

/-- C7: in the delegated path with all authorization checks passing, the built
transaction carries `requesterPublicKey` equal to the signer's derived public
key and `senderPublicKey` equal to the target account's public key; in the
direct path, any successfully built transaction carries no requester field. -/
theorem C7_requester_field (lib : Library) (store : Store) (req : Request)
    (hval : lib.validateAddDelegates req = none)
    (hpk : pubkeyCheckOk req (lib.makeKeypairPub req.secret) = true)
    (hcreate : lib.create = fun p => .ok (createVoteTx p))
    (hrecv : lib.receiveTransactions = fun l => .ok l) :
    (∀ m tpk rpk tAcct rAcct l,
      req.multisigAccountPublicKey = some m →
      m ≠ lib.makeKeypairPub req.secret →
      Store.get store (lib.getAddress m) = some tAcct →
      tAcct.publicKey = some tpk →
      tAcct.multisignatures = some l →
      lib.makeKeypairPub req.secret ∈ l →
      Store.get store (lib.getAddress (lib.makeKeypairPub req.secret)) = some rAcct →
      rAcct.publicKey = some rpk →
      rAcct.secondSignature = false →
      rpk ≠ tpk →
      (addDelegates lib store req).result =
        .ok ⟨some { type := voteType, senderPublicKey := some tpk,
                    requesterPublicKey := some (lib.makeKeypairPub req.secret),
                    asset := req.delegates }⟩) ∧
    (takesDelegatedPath req (lib.makeKeypairPub req.secret) = false →
      ∀ tx, (addDelegates lib store req).result = .ok ⟨some tx⟩ →
        tx.requesterPublicKey = none) := by
  constructor
  · intro m tpk rpk tAcct rAcct l hm hne htgt htpk hms hmem hreq hrpk hrsig hdiff
    simp [addDelegates, addDelegatesMultisig, takesDelegatedPath, hval, hpk, hm,
          hne, htgt, htpk, hms, hmem, hreq, hrpk, hrsig, hcreate, hrecv,
          createVoteTx, hdiff]
  · intro h tx htx
    rcases hsg : Store.get store (lib.getAddress (lib.makeKeypairPub req.secret)) with _ | acct
    · simp [addDelegates, addDelegatesDirect, setAccountAndGet, hval, hpk, h,
            Store.get_set_self, hsg, freshAccount, hcreate, hrecv, createVoteTx] at htx
      simp [← htx]
    · by_cases hb : acct.secondSignature = true ∧ req.secondSecret = none
      · simp [addDelegates, addDelegatesDirect, setAccountAndGet, hval, hpk, h,
              Store.get_set_self, hsg, hb.1, hb.2, hcreate, hrecv] at htx
      · simp [addDelegates, addDelegatesDirect, setAccountAndGet, hval, hpk, h,
              Store.get_set_self, hsg, hb, hcreate, hrecv, createVoteTx] at htx
        simp [← htx]

theorem C7_requester_field_witness :
    (addDelegates libW storeC7 reqMsig).result =
      .ok ⟨some { type := voteType, senderPublicKey := some "K",
                  requesterPublicKey := some "abcP", asset := ["+d1"] }⟩ ∧
    Tx.requesterPublicKey { type := voteType, senderPublicKey := some "abcP",
                            requesterPublicKey := none, asset := ["+d1"] } = none :=
  ⟨(C7_requester_field libW storeC7 reqMsig rfl rfl rfl rfl).1 "K" "K" "abcP"
      _ _ ["abcP"] rfl (by decide) rfl rfl rfl (by decide) rfl rfl rfl (by decide),
   (C7_requester_field libW [] reqDirect rfl rfl rfl rfl).2 rfl
      { type := voteType, senderPublicKey := some "abcP",
        requesterPublicKey := none, asset := ["+d1"] } rfl⟩

/-- C8: an exception thrown by `library.logic.transaction.create` is caught
and returned to the caller as `BuildError` with the exception's own
`toString` (name and message preserved), on the direct path and on the
delegated path alike. -/
theorem C8_build_error_propagated (lib : Library) (store : Store) (req : Request)
    (e : JsError)
    (hval : lib.validateAddDelegates req = none)
    (hpk : pubkeyCheckOk req (lib.makeKeypairPub req.secret) = true)
    (hcreate : lib.create = fun _ => .error e) :
    (takesDelegatedPath req (lib.makeKeypairPub req.secret) = false →
      directSecondFails store (lib.getAddress (lib.makeKeypairPub req.secret)) req = false →
      (addDelegates lib store req).result = .error (JsError.toStr e)) ∧
    (∀ m tpk rpk tAcct rAcct l,
      req.multisigAccountPublicKey = some m →
      m ≠ lib.makeKeypairPub req.secret →
      Store.get store (lib.getAddress m) = some tAcct →
      tAcct.publicKey = some tpk →
      tAcct.multisignatures = some l →
      lib.makeKeypairPub req.secret ∈ l →
      Store.get store (lib.getAddress (lib.makeKeypairPub req.secret)) = some rAcct →
      rAcct.publicKey = some rpk →
      (rAcct.secondSignature && req.secondSecret.isNone) = false →
      rpk ≠ tpk →
      (addDelegates lib store req).result = .error (JsError.toStr e)) := by
  constructor
  · intro h hfail
    rcases hsg : Store.get store (lib.getAddress (lib.makeKeypairPub req.secret)) with _ | acct
    · simp [addDelegates, addDelegatesDirect, setAccountAndGet, hval, hpk, h,
            Store.get_set_self, hsg, freshAccount, hcreate]
    · simp [directSecondFails, hsg] at hfail
      have hne2 : ¬(acct.secondSignature = true ∧ req.secondSecret = none) := by
        rintro ⟨h1, h2⟩
        have h3 := hfail h1
        simp [h2] at h3
      simp [addDelegates, addDelegatesDirect, setAccountAndGet, hval, hpk, h,
            Store.get_set_self, hsg, hne2, hcreate]
  · intro m tpk rpk tAcct rAcct l hm hne htgt htpk hms hmem hreq hrpk hsecond hdiff
    simp [addDelegates, addDelegatesMultisig, takesDelegatedPath, hval, hpk, hm,
          hne, htgt, htpk, hms, hmem, hreq, hrpk, hsecond, hcreate, hdiff]

theorem C8_build_error_propagated_witness :
    (addDelegates libE [] reqDirect).result = .error "Error: Invalid votes" ∧
    (addDelegates libE storeC7 reqMsig).result = .error "Error: Invalid votes" :=
  ⟨(C8_build_error_propagated libE [] reqDirect ⟨"Error", "Invalid votes"⟩
      rfl rfl rfl).1 rfl rfl,
   (C8_build_error_propagated libE storeC7 reqMsig ⟨"Error", "Invalid votes"⟩
      rfl rfl rfl).2 "K" "K" "abcP" _ _ ["abcP"]
      rfl (by decide) rfl rfl rfl (by decide) rfl rfl rfl (by decide)⟩
